import Mathlib

/-!
Shallow embedding of the API-aggregation core of the `sdd-python-service`
repository (modules `quotes`, `weather`, `countries`), used to verify the
response-normalization and pagination contract stated in its specification.

Modelling conventions, applied uniformly:
* Parsed upstream JSON is the inductive `Json` below; JSON numbers are
  modelled as `Rat` (values are only passed through, never computed with,
  so one exact numeric carrier suffices for both int and float fields).
* Python `dict.get(key, default)` on a parsed JSON object is association-list
  lookup with an explicit default; a field whose present value has the wrong
  type for the target (pydantic) schema makes the whole parse fail (`none`),
  matching the pydantic validation error that the services turn into a
  `ServiceException`.
* Exceptions are modelled by `Except SvcError`; the human-readable message
  strings are abstracted into the stable classification `SvcError` (the spec
  fixes only the classification, not the message text).
* Timestamps stay `String`: `datetime.fromisoformat` belongs to the external
  standard library, and the services never inspect the parsed value.
* Python `str.upper()` / `str.lower()` / `str.replace` are modelled by the
  structural-recursion char-list functions `py_upper` / `py_lower` /
  `py_replace_z` below (exact on the ASCII data these operations receive).
-/

/-- Python `str.upper()` (ASCII case mapping). -/
def py_upper (s : String) : String := ⟨s.data.map Char.toUpper⟩

/-- Python `str.lower()` (ASCII case mapping). -/
def py_lower (s : String) : String := ⟨s.data.map Char.toLower⟩

/-- `time_str.replace("Z", "+00:00")` over the character list. -/
def replace_z_chars : List Char → List Char
  | [] => []
  | c :: rest =>
      if c = 'Z' then '+' :: '0' :: '0' :: ':' :: '0' :: '0' :: replace_z_chars rest
      else c :: replace_z_chars rest

/-- `time_str.replace("Z", "+00:00")`. -/
def py_replace_z (s : String) : String := ⟨replace_z_chars s.data⟩

/-- Does the second list start with the first? -/
def chars_start_with : List Char → List Char → Bool
  | [], _ => true
  | _ :: _, [] => false
  | p :: ps, c :: cs => p = c && chars_start_with ps cs

/-- Python substring membership `pattern in s`. -/
def has_substr (pattern : List Char) : List Char → Bool
  | [] => pattern.isEmpty
  | c :: cs => chars_start_with pattern (c :: cs) || has_substr pattern cs

/-- Parsed JSON value, as produced by `response.json()`. -/
inductive Json where
  | null
  | bool (b : Bool)
  | num (n : Rat)
  | str (s : String)
  | arr (items : List Json)
  | obj (fields : List (String × Json))
deriving Repr

/-- Python truthiness of a parsed-JSON value (`if not data: ...`). -/
def pyTruthy : Json → Bool
  | Json.null => false
  | Json.bool b => b
  | Json.num n => n ≠ 0
  | Json.str s => s ≠ ""
  | Json.arr [] => false
  | Json.arr (_ :: _) => true
  | Json.obj [] => false
  | Json.obj (_ :: _) => true

/-- Dictionary lookup on a parsed JSON object (keys of parsed JSON are unique). -/
def jlookup : List (String × Json) → String → Option Json
  | [], _ => none
  | (k, v) :: rest, key => if key = k then some v else jlookup rest key

/-- `data.get(key, default)` for a field fed to a `str`-typed schema slot:
missing key yields the default, a string value is taken verbatim, any other
value makes the parse fail (pydantic validation error). -/
def getStrD (fs : List (String × Json)) (key dflt : String) : Option String :=
  match jlookup fs key with
  | none => some dflt
  | some (Json.str s) => some s
  | some _ => none

/-- `data.get(key)` for an `Optional[str]` schema slot. -/
def getOptStr (fs : List (String × Json)) (key : String) : Option (Option String) :=
  match jlookup fs key with
  | none => some none
  | some Json.null => some none
  | some (Json.str s) => some (some s)
  | some _ => none

/-- `data.get(key, default)` for a numeric schema slot. -/
def getNumD (fs : List (String × Json)) (key : String) (dflt : Rat) : Option Rat :=
  match jlookup fs key with
  | none => some dflt
  | some (Json.num n) => some n
  | some _ => none

/-- `data.get(key)` for an `Optional` numeric schema slot. -/
def getOptNum (fs : List (String × Json)) (key : String) : Option (Option Rat) :=
  match jlookup fs key with
  | none => some none
  | some Json.null => some none
  | some (Json.num n) => some (some n)
  | some _ => none

/-- A JSON array all of whose items are strings, as a `List String`. -/
def asStrList : List Json → Option (List String)
  | [] => some []
  | Json.str s :: rest =>
      match asStrList rest with
      | some tail => some (s :: tail)
      | none => none
  | _ :: _ => none

/-- `data.get(key, [])` for a `List[str]` schema slot. -/
def getStrListD (fs : List (String × Json)) (key : String) : Option (List String) :=
  match jlookup fs key with
  | none => some []
  | some (Json.arr items) => asStrList items
  | some _ => none

/-- `data.get(key)` for an `Optional[List[str]]` schema slot. -/
def getOptStrList (fs : List (String × Json)) (key : String) :
    Option (Option (List String)) :=
  match jlookup fs key with
  | none => some none
  | some Json.null => some none
  | some (Json.arr items) =>
      match asStrList items with
      | some l => some (some l)
      | none => none
  | some _ => none

/-- An upstream HTTP response as the services see it. -/
structure HttpResponse where
  status : Nat
  body : Json
deriving Repr

/-- `httpx.Response.is_success`: `raise_for_status` raises exactly outside 2xx. -/
def is2xx (status : Nat) : Bool := 200 ≤ status && status < 300

/-- Stable error classification carried by `ServiceException` messages:
`notFound` is the exception whose message marks a missing entity (the HTTP
handler maps it to 404), `upstream` the `httpx.HTTPStatusError` branch,
`network` the `httpx.RequestError` branch, `invalidShape` the literal
invalid-response-format failure, `unexpected` the generic `except Exception`. -/
inductive SvcError where
  | notFound
  | upstream
  | network
  | invalidShape
  | unexpected
deriving Repr, DecidableEq

/-- A single-valued query parameter or a list-valued one (httpx encodes list
values as repeated parameters). -/
inductive ParamValue where
  | str (s : String)
  | num (n : Rat)
  | strs (items : List String)
deriving Repr, DecidableEq

/-- The one outbound HTTP request an operation issues: URL, query parameters,
timeout in seconds, and the TLS-verification flag of the client it is made on. -/
structure HttpRequest where
  url : String
  params : List (String × ParamValue)
  timeout : Rat
  verify : Bool
deriving Repr, DecidableEq

/-! ## Quotes module (`modules/quotes/services.py`, `modules/quotes/apiv1/handler.py`) -/

/-- `modules/quotes/schemas.py`: the `Quote` response model. -/
structure Quote where
  id : String
  content : String
  author : String
  author_slug : Option String
  tags : List String
  length : Rat
  date_added : Option String
  date_modified : Option String
deriving Repr, DecidableEq

/-- `QuotesService._parse_quote`: field-by-field `data.get` with defaults,
feeding the `Quote` model; non-object input fails (`.get` on a non-dict). -/
def parse_quote (j : Json) : Option Quote :=
  match j with
  | Json.obj fs =>
      (getStrD fs "_id" "").bind fun id =>
      (getStrD fs "content" "").bind fun content =>
      (getStrD fs "author" "").bind fun author =>
      (getOptStr fs "authorSlug").bind fun author_slug =>
      (getStrListD fs "tags").bind fun tags =>
      (getNumD fs "length" 0).bind fun len =>
      (getOptStr fs "dateAdded").bind fun date_added =>
      (getOptStr fs "dateModified").bind fun date_modified =>
      some ⟨id, content, author, author_slug, tags, len, date_added, date_modified⟩
  | _ => none

/-- `[self._parse_quote(quote_data) for quote_data in ...]`. -/
def parse_quotes : List Json → Option (List Quote)
  | [] => some []
  | x :: rest =>
      match parse_quote x, parse_quotes rest with
      | some q, some qs => some (q :: qs)
      | _, _ => none

/-- `QuotesService.get_random_quote`, given the upstream response: non-2xx
raises; a non-empty JSON array is parsed at its first element, a JSON object
is parsed directly, anything else (empty array included) raises the
invalid-response-format `ServiceException`. -/
def get_random_quote (resp : HttpResponse) : Except SvcError Quote :=
  if is2xx resp.status then
    match resp.body with
    | Json.arr (x :: _) =>
        match parse_quote x with
        | some q => Except.ok q
        | none => Except.error SvcError.unexpected
    | Json.obj fs =>
        match parse_quote (Json.obj fs) with
        | some q => Except.ok q
        | none => Except.error SvcError.unexpected
    | _ => Except.error SvcError.invalidShape
  else Except.error SvcError.upstream

/-- `QuotesService.get_quote_by_id`, given the upstream response: a 404 raises
the `ServiceException` whose message marks the quote as not found; any other
non-2xx raises the plain upstream failure. -/
def get_quote_by_id (resp : HttpResponse) : Except SvcError Quote :=
  if is2xx resp.status then
    match parse_quote resp.body with
    | some q => Except.ok q
    | none => Except.error SvcError.unexpected
  else if resp.status = 404 then Except.error SvcError.notFound
  else Except.error SvcError.upstream

/-- `data.get("results", [])` parsed element-wise. -/
def parse_results_field (fs : List (String × Json)) : Option (List Quote) :=
  match jlookup fs "results" with
  | none => some []
  | some (Json.arr items) => parse_quotes items
  | some _ => none

/-- Shared body of `QuotesService.search_quotes` and
`QuotesService.get_quotes_by_author` response handling: the parsed quotes and
`total_count = data.get("totalCount", len(quotes))`. -/
def parse_quotes_list_body (body : Json) : Except SvcError (List Quote × Rat) :=
  match body with
  | Json.obj fs =>
      match parse_results_field fs with
      | none => Except.error SvcError.unexpected
      | some quotes =>
          match jlookup fs "totalCount" with
          | none => Except.ok (quotes, (quotes.length : Rat))
          | some (Json.num n) => Except.ok (quotes, n)
          | some _ => Except.error SvcError.unexpected
  | _ => Except.error SvcError.unexpected

/-- `QuotesService.search_quotes`, given the upstream response. -/
def search_quotes (resp : HttpResponse) : Except SvcError (List Quote × Rat) :=
  if is2xx resp.status then parse_quotes_list_body resp.body
  else Except.error SvcError.upstream

/-- `QuotesService.get_quotes_by_author`, given the upstream response (the
source duplicates the `search_quotes` response handling verbatim). -/
def get_quotes_by_author (resp : HttpResponse) : Except SvcError (List Quote × Rat) :=
  if is2xx resp.status then parse_quotes_list_body resp.body
  else Except.error SvcError.upstream

/-- `modules/quotes/schemas.py`: `QuotesListResponse` (timestamp omitted — it
is wall-clock presentation, not normalization). -/
structure QuotesListResponse where
  quotes : List Quote
  count : Nat
  page : Nat
  total_count : Rat
deriving Repr, DecidableEq

/-- `handler.search_quotes`: build the paginated response with
`page = skip // limit + 1 if limit > 0 else 1` and `count = len(quotes)`. -/
def search_quotes_handler (skip limit : Nat) (resp : HttpResponse) :
    Except SvcError QuotesListResponse :=
  match search_quotes resp with
  | Except.error e => Except.error e
  | Except.ok (quotes, total) =>
      Except.ok
        { quotes := quotes
          count := quotes.length
          page := if limit > 0 then skip / limit + 1 else 1
          total_count := total }

/-- `handler.get_quotes_by_author`: identical pagination computation. -/
def get_quotes_by_author_handler (skip limit : Nat) (resp : HttpResponse) :
    Except SvcError QuotesListResponse :=
  match get_quotes_by_author resp with
  | Except.error e => Except.error e
  | Except.ok (quotes, total) =>
      Except.ok
        { quotes := quotes
          count := quotes.length
          page := if limit > 0 then skip / limit + 1 else 1
          total_count := total }

/-- `QuotesService.__init__`: `os.getenv("QUOTES_VERIFY_SSL", "false").lower()
in ("true", "1", "yes")`. -/
def parse_verify_ssl (env : Option String) : Bool :=
  let v := py_lower (env.getD "false")
  v == "true" || v == "1" || v == "yes"

def quotes_base : String := "https://api.quotable.io"

/-- Request issued by `get_random_quote` (`if tags:` and `if max_length:` are
Python truthiness, so empty string and `0` are skipped). -/
def get_random_quote_request (env : Option String) (tags : Option String)
    (max_length : Option Rat) : HttpRequest :=
  { url := quotes_base ++ "/quotes/random"
    params :=
      (match tags with
       | some t => if t = "" then [] else [("tags", ParamValue.str t)]
       | none => []) ++
      (match max_length with
       | some m => if m = 0 then [] else [("maxLength", ParamValue.num m)]
       | none => [])
    timeout := 10
    verify := parse_verify_ssl env }

/-- Request issued by `get_quote_by_id`. -/
def get_quote_by_id_request (env : Option String) (quote_id : String) : HttpRequest :=
  { url := quotes_base ++ "/quotes/" ++ quote_id
    params := []
    timeout := 10
    verify := parse_verify_ssl env }

/-- Request issued by `search_quotes` (optional filters added only when truthy,
in source order after `limit` and `skip`). -/
def search_quotes_request (env : Option String) (query author tags : Option String)
    (min_length max_length : Option Rat) (limit skip : Nat) : HttpRequest :=
  { url := quotes_base ++ "/quotes"
    params :=
      [("limit", ParamValue.num (limit : Rat)), ("skip", ParamValue.num (skip : Rat))] ++
      (match query with
       | some q => if q = "" then [] else [("query", ParamValue.str q)]
       | none => []) ++
      (match author with
       | some a => if a = "" then [] else [("author", ParamValue.str a)]
       | none => []) ++
      (match tags with
       | some t => if t = "" then [] else [("tags", ParamValue.str t)]
       | none => []) ++
      (match min_length with
       | some m => if m = 0 then [] else [("minLength", ParamValue.num m)]
       | none => []) ++
      (match max_length with
       | some m => if m = 0 then [] else [("maxLength", ParamValue.num m)]
       | none => [])
    timeout := 10
    verify := parse_verify_ssl env }

/-- Request issued by `get_quotes_by_author` (`{**params, "author": author_slug}`
always appends the author slug). -/
def get_quotes_by_author_request (env : Option String) (author_slug : String)
    (limit skip : Nat) : HttpRequest :=
  { url := quotes_base ++ "/quotes"
    params :=
      [("limit", ParamValue.num (limit : Rat)), ("skip", ParamValue.num (skip : Rat)),
       ("author", ParamValue.str author_slug)]
    timeout := 10
    verify := parse_verify_ssl env }

/-! ## Weather module (`modules/weather/services.py`) -/

/-- `WeatherService._get_weather_code_description`: the literal lookup table. -/
def weather_codes : List (Rat × String) :=
  [(0, "Clear sky"), (1, "Mainly clear"), (2, "Partly cloudy"), (3, "Overcast"),
   (45, "Foggy"), (48, "Depositing rime fog"),
   (51, "Light drizzle"), (53, "Moderate drizzle"), (55, "Dense drizzle"),
   (56, "Light freezing drizzle"), (57, "Dense freezing drizzle"),
   (61, "Slight rain"), (63, "Moderate rain"), (65, "Heavy rain"),
   (66, "Light freezing rain"), (67, "Heavy freezing rain"),
   (71, "Slight snow fall"), (73, "Moderate snow fall"), (75, "Heavy snow fall"),
   (77, "Snow grains"),
   (80, "Slight rain showers"), (81, "Moderate rain showers"),
   (82, "Violent rain showers"),
   (85, "Slight snow showers"), (86, "Heavy snow showers"),
   (95, "Thunderstorm"), (96, "Thunderstorm with slight hail"),
   (99, "Thunderstorm with heavy hail")]

/-- Association lookup mirroring `dict.get(code, ...)` (Python numeric equality
across int/float is `Rat` equality). -/
def table_get : List (Rat × String) → Rat → Option String
  | [], _ => none
  | (k, v) :: rest, code => if code = k then some v else table_get rest code

/-- `weather_codes.get(code, "Unknown")`. -/
def get_weather_code_description (code : Rat) : String :=
  (table_get weather_codes code).getD "Unknown"

/-- `modules/weather/schemas.py`: `CurrentWeather`. -/
structure CurrentWeather where
  temperature : Rat
  humidity : Rat
  wind_speed : Rat
  wind_direction : Rat
  weather_code : Rat
  weather_description : String
  pressure : Option Rat
  visibility : Option Rat
deriving Repr, DecidableEq

/-- The `CurrentWeather(...)` construction from `current = data.get("current", {})`
in `get_current_weather` / `get_weather_with_forecast`: per-field `.get` with
defaults; the description is derived from `current.get("weather_code", 0)`. -/
def parse_current_weather (j : Json) : Option CurrentWeather :=
  match j with
  | Json.obj fs =>
      (getNumD fs "temperature_2m" 0).bind fun temperature =>
      (getNumD fs "relative_humidity_2m" 0).bind fun humidity =>
      (getNumD fs "wind_speed_10m" 0).bind fun wind_speed =>
      (getNumD fs "wind_direction_10m" 0).bind fun wind_direction =>
      (getNumD fs "weather_code" 0).bind fun weather_code =>
      (getOptNum fs "surface_pressure").bind fun pressure =>
      (getOptNum fs "visibility").bind fun visibility =>
      some ⟨temperature, humidity, wind_speed, wind_direction, weather_code,
            get_weather_code_description weather_code, pressure, visibility⟩
  | _ => none

/-- `modules/weather/schemas.py`: `HourlyForecast` (`time` kept as the ISO
string handed to `datetime.fromisoformat` after the `Z` replacement). -/
structure HourlyForecast where
  time : String
  temperature : Rat
  humidity : Rat
  wind_speed : Rat
  wind_direction : Rat
  weather_code : Rat
  weather_description : String
  precipitation_probability : Option Rat
deriving Repr, DecidableEq

/-- `modules/weather/schemas.py`: `DailyForecast` (`date` kept as the ISO string). -/
structure DailyForecast where
  date : String
  temperature_max : Rat
  temperature_min : Rat
  weather_code : Rat
  weather_description : String
  precipitation_sum : Option Rat
  wind_speed_max : Option Rat
deriving Repr, DecidableEq

/-- `hourly_data.get(key, [dflt])[i]` for a required numeric forecast field:
a missing key defaults to the one-element list `[dflt]`, so index `0` yields
the default and any later index raises `IndexError`; a present array is
indexed directly (out of range raises). -/
def getNumArrD (fs : List (String × Json)) (key : String) (dflt : Rat) (i : Nat) :
    Option Rat :=
  match jlookup fs key with
  | none => if i = 0 then some dflt else none
  | some (Json.arr items) =>
      match items.get? i with
      | some (Json.num n) => some n
      | _ => none
  | some _ => none

/-- `hourly_data.get(key, [None])[i]` for an `Optional` numeric forecast field. -/
def getOptNumArr (fs : List (String × Json)) (key : String) (i : Nat) :
    Option (Option Rat) :=
  match jlookup fs key with
  | none => if i = 0 then some none else none
  | some (Json.arr items) =>
      match items.get? i with
      | some (Json.num n) => some (some n)
      | some Json.null => some none
      | _ => none
  | some _ => none

/-- One `HourlyForecast(...)` construction at loop index `i` of
`get_weather_with_forecast`. -/
def build_hourly_entry (fs : List (String × Json)) (i : Nat) (time_str : String) :
    Option HourlyForecast :=
  (getNumArrD fs "temperature_2m" 0 i).bind fun temperature =>
  (getNumArrD fs "relative_humidity_2m" 0 i).bind fun humidity =>
  (getNumArrD fs "wind_speed_10m" 0 i).bind fun wind_speed =>
  (getNumArrD fs "wind_direction_10m" 0 i).bind fun wind_direction =>
  (getNumArrD fs "weather_code" 0 i).bind fun weather_code =>
  (getOptNumArr fs "precipitation_probability" i).bind fun precipitation_probability =>
  some ⟨py_replace_z time_str, temperature, humidity, wind_speed,
        wind_direction, weather_code, get_weather_code_description weather_code,
        precipitation_probability⟩

/-- The `for i, time_str in enumerate(times[:48])` accumulation (`i` is the
running index, the list argument is the already-truncated time list). -/
def build_hourly_from (fs : List (String × Json)) : Nat → List String →
    Option (List HourlyForecast)
  | _, [] => some []
  | i, t :: ts =>
      match build_hourly_entry fs i t, build_hourly_from fs (i + 1) ts with
      | some e, some rest => some (e :: rest)
      | _, _ => none

/-- The hourly block of `get_weather_with_forecast`: read
`hourly_data.get("time", [])`, truncate to 48, build entries in order. -/
def build_hourly_forecast (j : Json) : Option (List HourlyForecast) :=
  match j with
  | Json.obj fs =>
      (getStrListD fs "time").bind fun times =>
      build_hourly_from fs 0 (times.take 48)
  | _ => none

/-- One `DailyForecast(...)` construction at loop index `i`. -/
def build_daily_entry (fs : List (String × Json)) (i : Nat) (date_str : String) :
    Option DailyForecast :=
  (getNumArrD fs "temperature_2m_max" 0 i).bind fun temperature_max =>
  (getNumArrD fs "temperature_2m_min" 0 i).bind fun temperature_min =>
  (getNumArrD fs "weather_code" 0 i).bind fun weather_code =>
  (getOptNumArr fs "precipitation_sum" i).bind fun precipitation_sum =>
  (getOptNumArr fs "wind_speed_10m_max" i).bind fun wind_speed_max =>
  some ⟨date_str, temperature_max, temperature_min, weather_code,
        get_weather_code_description weather_code, precipitation_sum, wind_speed_max⟩

/-- The `for i, date_str in enumerate(dates[:7])` accumulation. -/
def build_daily_from (fs : List (String × Json)) : Nat → List String →
    Option (List DailyForecast)
  | _, [] => some []
  | i, t :: ts =>
      match build_daily_entry fs i t, build_daily_from fs (i + 1) ts with
      | some e, some rest => some (e :: rest)
      | _, _ => none

/-- The daily block of `get_weather_with_forecast`: read
`daily_data.get("time", [])`, truncate to 7, build entries in order. -/
def build_daily_forecast (j : Json) : Option (List DailyForecast) :=
  match j with
  | Json.obj fs =>
      (getStrListD fs "time").bind fun dates =>
      build_daily_from fs 0 (dates.take 7)
  | _ => none

/-- Value of `get_weather_with_forecast` relevant to normalization. -/
structure ForecastResult where
  current : CurrentWeather
  hourly : Option (List HourlyForecast)
  daily : Option (List DailyForecast)
deriving Repr, DecidableEq

/-- `if hourly and "hourly" in data:` — the hourly list stays `None` unless the
flag is set and the key is present; building it can fail (index errors). -/
def forecast_hourly_part (hourly : Bool) (fs : List (String × Json)) :
    Option (Option (List HourlyForecast)) :=
  match hourly, jlookup fs "hourly" with
  | true, some hj =>
      match build_hourly_forecast hj with
      | some l => some (some l)
      | none => none
  | _, _ => some none

/-- `if daily and "daily" in data:` — as `forecast_hourly_part`. -/
def forecast_daily_part (daily : Bool) (fs : List (String × Json)) :
    Option (Option (List DailyForecast)) :=
  match daily, jlookup fs "daily" with
  | true, some dj =>
      match build_daily_forecast dj with
      | some l => some (some l)
      | none => none
  | _, _ => some none

/-- `WeatherService.get_weather_with_forecast`, given the include flags and the
upstream response: parse the current block, then build the hourly list when
requested and present, then the daily list. -/
def get_weather_with_forecast (hourly daily : Bool) (resp : HttpResponse) :
    Except SvcError ForecastResult :=
  if is2xx resp.status then
    match resp.body with
    | Json.obj fs =>
        match parse_current_weather ((jlookup fs "current").getD (Json.obj [])) with
        | none => Except.error SvcError.unexpected
        | some current =>
            match forecast_hourly_part hourly fs with
            | none => Except.error SvcError.unexpected
            | some hourly_forecast =>
                match forecast_daily_part daily fs with
                | none => Except.error SvcError.unexpected
                | some daily_forecast =>
                    Except.ok ⟨current, hourly_forecast, daily_forecast⟩
    | _ => Except.error SvcError.unexpected
  else Except.error SvcError.upstream

def weather_base : String := "https://api.open-meteo.com/v1/forecast"

/-- Request issued by `WeatherService.get_current_weather` (client constructed
with `timeout` only, so httpx keeps TLS verification on). -/
def get_current_weather_request (latitude longitude : Rat) (timezone : String) :
    HttpRequest :=
  { url := weather_base
    params :=
      [("latitude", ParamValue.num latitude), ("longitude", ParamValue.num longitude),
       ("current", ParamValue.strs
          ["temperature_2m", "relative_humidity_2m", "wind_speed_10m",
           "wind_direction_10m", "weather_code", "surface_pressure", "visibility"]),
       ("timezone", ParamValue.str timezone)]
    timeout := 10
    verify := true }

/-! ## Countries module (`modules/countries/services.py`,
`modules/countries/apiv1/handler.py`) -/

/-- `modules/countries/schemas.py`: `Currency`. -/
structure Currency where
  code : String
  name : String
  symbol : String
deriving Repr, DecidableEq

/-- `modules/countries/schemas.py`: `Language` (`code` is declared optional in
the schema; the transform always supplies the mapping key). Named
`CountryLanguage` here because Lean already reserves `Language`. -/
structure CountryLanguage where
  code : Option String
  name : String
deriving Repr, DecidableEq

/-- `modules/countries/schemas.py`: `Country`. -/
structure Country where
  name : String
  official_name : String
  capital : Option (List String)
  region : String
  subregion : Option String
  population : Rat
  area : Option Rat
  currencies : Option (List Currency)
  languages : Option (List CountryLanguage)
  flag : String
  flag_url : Option String
  cca2 : String
  cca3 : String
  calling_codes : Option (List String)
  timezones : Option (List String)
deriving Repr, DecidableEq

/-- Python `key in value` for a parsed-JSON value: key membership for objects,
element equality for arrays, substring test for strings, `TypeError` (hence
the generic exception path) otherwise. -/
def py_key_contains (v : Json) (key : String) : Option Bool :=
  match v with
  | Json.obj fs => some (jlookup fs key).isSome
  | Json.arr items =>
      some (items.any fun j =>
        match j with
        | Json.str s => s == key
        | _ => false)
  | Json.str s => some (has_substr key.data s.data)
  | _ => none

/-- The currency list comprehension over `data["currencies"].items()`:
each value must be an object whose `name`/`symbol` default to `""`. -/
def build_currencies : List (String × Json) → Option (List Currency)
  | [] => some []
  | (code, info) :: rest =>
      match info with
      | Json.obj ifs =>
          match getStrD ifs "name" "", getStrD ifs "symbol" "", build_currencies rest with
          | some n, some s, some tail => some (⟨code, n, s⟩ :: tail)
          | _, _, _ => none
      | _ => none

/-- `if "currencies" in data and data["currencies"]: currencies = [...]`. -/
def extract_currencies (fs : List (String × Json)) : Option (Option (List Currency)) :=
  match jlookup fs "currencies" with
  | none => some none
  | some v =>
      if pyTruthy v then
        match v with
        | Json.obj cfs =>
            match build_currencies cfs with
            | some cs => some (some cs)
            | none => none
        | _ => none
      else some none

/-- The language list comprehension over `data["languages"].items()`. -/
def build_languages : List (String × Json) → Option (List CountryLanguage)
  | [] => some []
  | (code, v) :: rest =>
      match v, build_languages rest with
      | Json.str n, some tail => some (⟨some code, n⟩ :: tail)
      | _, _ => none

/-- `if "languages" in data and data["languages"]: languages = [...]`. -/
def extract_languages (fs : List (String × Json)) : Option (Option (List CountryLanguage)) :=
  match jlookup fs "languages" with
  | none => some none
  | some v =>
      if pyTruthy v then
        match v with
        | Json.obj lfs =>
            match build_languages lfs with
            | some ls => some (some ls)
            | none => none
        | _ => none
      else some none

/-- `if "idd" in data and "root" in data["idd"]:` followed by
`[f"{root}{suffix}" for suffix in data["idd"].get("suffixes", [])]` with
`root = data["idd"].get("root", "")`; when the guard fails the field stays
`None` (absent), distinct from the empty list produced by empty suffixes. -/
def extract_calling_codes (fs : List (String × Json)) : Option (Option (List String)) :=
  match jlookup fs "idd" with
  | none => some none
  | some v =>
      match py_key_contains v "root" with
      | none => none
      | some false => some none
      | some true =>
          match v with
          | Json.obj idd =>
              match getStrD idd "root" "", getStrListD idd "suffixes" with
              | some root, some suffixes =>
                  some (some (suffixes.map fun suffix => root ++ suffix))
              | _, _ => none
          | _ => none

/-- `if "flags" in data and "png" in data["flags"]: flag_url = data["flags"]["png"]`. -/
def extract_flag_url (fs : List (String × Json)) : Option (Option String) :=
  match jlookup fs "flags" with
  | none => some none
  | some v =>
      match py_key_contains v "png" with
      | none => none
      | some false => some none
      | some true =>
          match v with
          | Json.obj ffs =>
              match jlookup ffs "png" with
              | some (Json.str s) => some (some s)
              | some Json.null => some none
              | _ => none
          | _ => none

/-- `data.get("name", {}).get(key, "")` for the nested name object. -/
def get_name_field (fs : List (String × Json)) (key : String) : Option String :=
  match jlookup fs "name" with
  | none => some ""
  | some (Json.obj nfs) => getStrD nfs key ""
  | some _ => none

/-- `data.get("capital", [])` for the `Optional[List[str]]` capital slot:
missing defaults to the empty list, an explicit `null` stays `None`. -/
def get_capital_field (fs : List (String × Json)) : Option (Option (List String)) :=
  match jlookup fs "capital" with
  | none => some (some [])
  | some Json.null => some none
  | some (Json.arr items) =>
      match asStrList items with
      | some l => some (some l)
      | none => none
  | some _ => none

/-- `CountryService._transform_country_data`. -/
def transform_country_data (j : Json) : Option Country :=
  match j with
  | Json.obj fs =>
      (extract_currencies fs).bind fun currencies =>
      (extract_languages fs).bind fun languages =>
      (extract_calling_codes fs).bind fun calling_codes =>
      (extract_flag_url fs).bind fun flag_url =>
      (get_name_field fs "common").bind fun name =>
      (get_name_field fs "official").bind fun official_name =>
      (get_capital_field fs).bind fun capital =>
      (getStrD fs "region" "").bind fun region =>
      (getOptStr fs "subregion").bind fun subregion =>
      (getNumD fs "population" 0).bind fun population =>
      (getOptNum fs "area").bind fun area =>
      (getStrD fs "flag" "").bind fun flag =>
      (getStrD fs "cca2" "").bind fun cca2 =>
      (getStrD fs "cca3" "").bind fun cca3 =>
      (getOptStrList fs "timezones").bind fun timezones =>
      some ⟨name, official_name, capital, region, subregion, population, area,
            currencies, languages, flag, flag_url, cca2, cca3, calling_codes,
            timezones⟩
  | _ => none

/-- `CountryService.get_country_by_name`, given the upstream response: 404
returns the `None` sentinel; a falsy 2xx body returns `None`; otherwise the
first array element is transformed. -/
def get_country_by_name (resp : HttpResponse) : Except SvcError (Option Country) :=
  if is2xx resp.status then
    if pyTruthy resp.body then
      match resp.body with
      | Json.arr (x :: _) =>
          match transform_country_data x with
          | some c => Except.ok (some c)
          | none => Except.error SvcError.unexpected
      | _ => Except.error SvcError.unexpected
    else Except.ok none
  else if resp.status = 404 then Except.ok none
  else Except.error SvcError.upstream

/-- `CountryService.get_country_by_code`, given the upstream response: 404
returns the `None` sentinel; a falsy 2xx body returns `None`; otherwise the
body object is transformed directly. -/
def get_country_by_code (resp : HttpResponse) : Except SvcError (Option Country) :=
  if is2xx resp.status then
    if pyTruthy resp.body then
      match transform_country_data resp.body with
      | some c => Except.ok (some c)
      | none => Except.error SvcError.unexpected
    else Except.ok none
  else if resp.status = 404 then Except.ok none
  else Except.error SvcError.upstream

def countries_base : String := "https://restcountries.com/v3.1"

/-- Request issued by `CountryService.get_country_by_name` (client constructed
with `timeout` only, so httpx keeps TLS verification on). -/
def get_country_by_name_request (name : String) : HttpRequest :=
  { url := countries_base ++ "/name/" ++ name
    params := [("fullText", ParamValue.str "false")]
    timeout := 10
    verify := true }

/-- Request issued by `CountryService.get_country_by_code`. -/
def get_country_by_code_request (code : String) : HttpRequest :=
  { url := countries_base ++ "/alpha/" ++ code
    params := []
    timeout := 10
    verify := true }

/-- Request issued by `CountryService.get_all_countries`
(`if fields: params["fields"] = ",".join(fields)`). -/
def get_all_countries_request (fields : Option (List String)) : HttpRequest :=
  { url := countries_base ++ "/all"
    params :=
      match fields with
      | some [] => []
      | some fl => [("fields", ParamValue.str (String.intercalate "," fl))]
      | none => []
    timeout := 10
    verify := true }

/-- Request issued by `CountryService.search_countries_by_region`. -/
def search_countries_by_region_request (region : String) : HttpRequest :=
  { url := countries_base ++ "/region/" ++ region
    params := []
    timeout := 10
    verify := true }

/-- HTTP-level outcome of the country lookup handlers: 200 with a country,
404 when the service returned the `None` sentinel, 503 on `ServiceException`. -/
inductive CountryLookupHttp where
  | ok (c : Country)
  | notFound404
  | serviceError503
deriving Repr, DecidableEq

/-- `handler.get_country_by_code` response mapping (the service is called on
`code.upper()`, which only affects the request URL, so the outcome depends on
the upstream response alone; the raw code reappears only inside the abstracted
404 message text). -/
def get_country_by_code_handler (_code : String) (resp : HttpResponse) : CountryLookupHttp :=
  match get_country_by_code resp with
  | Except.ok (some c) => CountryLookupHttp.ok c
  | Except.ok none => CountryLookupHttp.notFound404
  | Except.error _ => CountryLookupHttp.serviceError503

/-- `handler.get_country_by_code` request: `usecase.get_country_by_code(code.upper())`
(the use case is a pass-through to the service). -/
def get_country_by_code_handler_request (code : String) : HttpRequest :=
  get_country_by_code_request (py_upper code)

/-! ## Example data used in concrete instantiations -/

/-- The quote object of the claim example. -/
def sample_quote_fields : List (String × Json) :=
  [("_id", Json.str "abc"), ("content", Json.str "x"), ("author", Json.str "A")]

/-- The quote the claim example expects. -/
def sample_quote : Quote :=
  { id := "abc", content := "x", author := "A", author_slug := none,
    tags := [], length := 0, date_added := none, date_modified := none }

/-- The claim example `idd` block with two suffixes. -/
def sample_idd_fields : List (String × Json) :=
  [("root", Json.str "+1"), ("suffixes", Json.arr [Json.str "201", Json.str "202"])]

/-- The claim example `idd` block with no suffixes. -/
def sample_idd_empty : List (String × Json) :=
  [("root", Json.str "+1"), ("suffixes", Json.arr [])]


/-! ## Helper lemmas -/

theorem getStrD_of_missing (fs : List (String × Json)) (key dflt : String)
    (h : jlookup fs key = none) : getStrD fs key dflt = some dflt := by
  simp [getStrD, h]

theorem getOptStr_of_missing (fs : List (String × Json)) (key : String)
    (h : jlookup fs key = none) : getOptStr fs key = some none := by
  simp [getOptStr, h]

theorem getNumD_of_missing (fs : List (String × Json)) (key : String) (dflt : Rat)
    (h : jlookup fs key = none) : getNumD fs key dflt = some dflt := by
  simp [getNumD, h]

theorem getOptNum_of_missing (fs : List (String × Json)) (key : String)
    (h : jlookup fs key = none) : getOptNum fs key = some none := by
  simp [getOptNum, h]

theorem getStrListD_of_missing (fs : List (String × Json)) (key : String)
    (h : jlookup fs key = none) : getStrListD fs key = some [] := by
  simp [getStrListD, h]

theorem getOptStrList_of_missing (fs : List (String × Json)) (key : String)
    (h : jlookup fs key = none) : getOptStrList fs key = some none := by
  simp [getOptStrList, h]

theorem get_name_field_of_missing (fs : List (String × Json)) (key : String)
    (h : jlookup fs "name" = none) : get_name_field fs key = some "" := by
  simp [get_name_field, h]

theorem get_capital_field_of_missing (fs : List (String × Json))
    (h : jlookup fs "capital" = none) : get_capital_field fs = some (some []) := by
  simp [get_capital_field, h]

theorem extract_currencies_of_missing (fs : List (String × Json))
    (h : jlookup fs "currencies" = none) : extract_currencies fs = some none := by
  simp [extract_currencies, h]

theorem extract_languages_of_missing (fs : List (String × Json))
    (h : jlookup fs "languages" = none) : extract_languages fs = some none := by
  simp [extract_languages, h]

theorem extract_calling_codes_of_missing (fs : List (String × Json))
    (h : jlookup fs "idd" = none) : extract_calling_codes fs = some none := by
  simp [extract_calling_codes, h]

theorem extract_flag_url_of_missing (fs : List (String × Json))
    (h : jlookup fs "flags" = none) : extract_flag_url fs = some none := by
  simp [extract_flag_url, h]

theorem getNumArrD_zero_of_missing (fs : List (String × Json)) (key : String)
    (dflt : Rat) (h : jlookup fs key = none) : getNumArrD fs key dflt 0 = some dflt := by
  simp [getNumArrD, h]

theorem getOptNumArr_zero_of_missing (fs : List (String × Json)) (key : String)
    (h : jlookup fs key = none) : getOptNumArr fs key 0 = some none := by
  simp [getOptNumArr, h]

theorem table_get_of_not_mem (l : List (Rat × String)) (c : Rat)
    (h : c ∉ l.map Prod.fst) : table_get l c = none := by
  induction l with
  | nil => rfl
  | cons kv rest ih =>
      obtain ⟨k, v⟩ := kv
      simp only [List.map_cons, List.mem_cons] at h
      push_neg at h
      simp only [table_get, if_neg h.1]
      exact ih h.2

theorem asStrList_map_str (l : List String) : asStrList (l.map Json.str) = some l := by
  induction l with
  | nil => rfl
  | cons s rest ih => simp [asStrList, ih]

/-- Every successful `_parse_quote` run yields the field-wise `data.get` values. -/
theorem parse_quote_obj_eq (fs : List (String × Json)) (q : Quote)
    (h : parse_quote (Json.obj fs) = some q) :
    getStrD fs "_id" "" = some q.id ∧
    getStrD fs "content" "" = some q.content ∧
    getStrD fs "author" "" = some q.author ∧
    getOptStr fs "authorSlug" = some q.author_slug ∧
    getStrListD fs "tags" = some q.tags ∧
    getNumD fs "length" 0 = some q.length ∧
    getOptStr fs "dateAdded" = some q.date_added ∧
    getOptStr fs "dateModified" = some q.date_modified := by
  simp only [parse_quote, Option.bind_eq_some, Option.some.injEq] at h
  obtain ⟨i, h1, c, h2, a, h3, sl, h4, tg, h5, ln, h6, da, h7, dm, h8, hq⟩ := h
  subst hq
  exact ⟨h1, h2, h3, h4, h5, h6, h7, h8⟩

/-- Every successful `CurrentWeather(...)` construction yields the field-wise
`current.get` values, with the description derived from the weather code. -/
theorem parse_current_weather_obj_eq (fs : List (String × Json)) (cw : CurrentWeather)
    (h : parse_current_weather (Json.obj fs) = some cw) :
    getNumD fs "temperature_2m" 0 = some cw.temperature ∧
    getNumD fs "relative_humidity_2m" 0 = some cw.humidity ∧
    getNumD fs "wind_speed_10m" 0 = some cw.wind_speed ∧
    getNumD fs "wind_direction_10m" 0 = some cw.wind_direction ∧
    getNumD fs "weather_code" 0 = some cw.weather_code ∧
    cw.weather_description = get_weather_code_description cw.weather_code ∧
    getOptNum fs "surface_pressure" = some cw.pressure ∧
    getOptNum fs "visibility" = some cw.visibility := by
  simp only [parse_current_weather, Option.bind_eq_some, Option.some.injEq] at h
  obtain ⟨t, h1, hu, h2, ws, h3, wd, h4, wc, h5, p, h6, v, h7, hq⟩ := h
  subst hq
  exact ⟨h1, h2, h3, h4, h5, rfl, h6, h7⟩

/-- Every successful `_transform_country_data` run yields the field-wise
extraction results. -/
theorem transform_country_data_obj_eq (fs : List (String × Json)) (c : Country)
    (h : transform_country_data (Json.obj fs) = some c) :
    extract_currencies fs = some c.currencies ∧
    extract_languages fs = some c.languages ∧
    extract_calling_codes fs = some c.calling_codes ∧
    extract_flag_url fs = some c.flag_url ∧
    get_name_field fs "common" = some c.name ∧
    get_name_field fs "official" = some c.official_name ∧
    get_capital_field fs = some c.capital ∧
    getStrD fs "region" "" = some c.region ∧
    getOptStr fs "subregion" = some c.subregion ∧
    getNumD fs "population" 0 = some c.population ∧
    getOptNum fs "area" = some c.area ∧
    getStrD fs "flag" "" = some c.flag ∧
    getStrD fs "cca2" "" = some c.cca2 ∧
    getStrD fs "cca3" "" = some c.cca3 ∧
    getOptStrList fs "timezones" = some c.timezones := by
  unfold transform_country_data at h
  rw [Option.bind_eq_some] at h
  obtain ⟨cur, h1, h⟩ := h
  rw [Option.bind_eq_some] at h
  obtain ⟨lan, h2, h⟩ := h
  rw [Option.bind_eq_some] at h
  obtain ⟨cc, h3, h⟩ := h
  rw [Option.bind_eq_some] at h
  obtain ⟨fu, h4, h⟩ := h
  rw [Option.bind_eq_some] at h
  obtain ⟨na, h5, h⟩ := h
  rw [Option.bind_eq_some] at h
  obtain ⟨ofn, h6, h⟩ := h
  rw [Option.bind_eq_some] at h
  obtain ⟨cap, h7, h⟩ := h
  rw [Option.bind_eq_some] at h
  obtain ⟨re, h8, h⟩ := h
  rw [Option.bind_eq_some] at h
  obtain ⟨su, h9, h⟩ := h
  rw [Option.bind_eq_some] at h
  obtain ⟨po, h10, h⟩ := h
  rw [Option.bind_eq_some] at h
  obtain ⟨ar, h11, h⟩ := h
  rw [Option.bind_eq_some] at h
  obtain ⟨fl, h12, h⟩ := h
  rw [Option.bind_eq_some] at h
  obtain ⟨c2, h13, h⟩ := h
  rw [Option.bind_eq_some] at h
  obtain ⟨c3, h14, h⟩ := h
  rw [Option.bind_eq_some] at h
  obtain ⟨tz, h15, h⟩ := h
  rw [Option.some.injEq] at h
  subst h
  exact ⟨h1, h2, h3, h4, h5, h6, h7, h8, h9, h10, h11, h12, h13, h14, h15⟩

/-- The time string of a successfully built hourly entry. -/
theorem build_hourly_entry_time (fs : List (String × Json)) (i : Nat)
    (t : String) (e : HourlyForecast) (h : build_hourly_entry fs i t = some e) :
    e.time = py_replace_z t := by
  simp only [build_hourly_entry, Option.bind_eq_some, Option.some.injEq] at h
  obtain ⟨a, h1, b, h2, c, h3, d, h4, w, h5, p, h6, hq⟩ := h
  subst hq
  rfl

/-- The date string of a successfully built daily entry. -/
theorem build_daily_entry_date (fs : List (String × Json)) (i : Nat)
    (t : String) (e : DailyForecast) (h : build_daily_entry fs i t = some e) :
    e.date = t := by
  simp only [build_daily_entry, Option.bind_eq_some, Option.some.injEq] at h
  obtain ⟨a, h1, b, h2, c, h3, d, h4, w, h5, hq⟩ := h
  subst hq
  rfl

/-- The hourly accumulation loop produces one entry per (truncated) time, in
order. -/
theorem build_hourly_from_spec (fs : List (String × Json)) :
    ∀ (ts : List String) (i : Nat) (r : List HourlyForecast),
      build_hourly_from fs i ts = some r →
      r.length = ts.length ∧ r.map HourlyForecast.time = ts.map py_replace_z := by
  intro ts
  induction ts with
  | nil =>
      intro i r h
      simp only [build_hourly_from, Option.some.injEq] at h
      subst h
      exact ⟨rfl, rfl⟩
  | cons t rest ih =>
      intro i r h
      simp only [build_hourly_from] at h
      cases he : build_hourly_entry fs i t with
      | none => rw [he] at h; simp at h
      | some e =>
          rw [he] at h
          cases hr : build_hourly_from fs (i + 1) rest with
          | none => rw [hr] at h; simp at h
          | some tail =>
              rw [hr] at h
              simp only [Option.some.injEq] at h
              subst h
              obtain ⟨hl, hm⟩ := ih (i + 1) tail hr
              refine ⟨by simp [hl], ?_⟩
              simp [hm, build_hourly_entry_time fs i t e he]

/-- The daily accumulation loop produces one entry per (truncated) date, in
order. -/
theorem build_daily_from_spec (fs : List (String × Json)) :
    ∀ (ts : List String) (i : Nat) (r : List DailyForecast),
      build_daily_from fs i ts = some r →
      r.length = ts.length ∧ r.map DailyForecast.date = ts := by
  intro ts
  induction ts with
  | nil =>
      intro i r h
      simp only [build_daily_from, Option.some.injEq] at h
      subst h
      exact ⟨rfl, rfl⟩
  | cons t rest ih =>
      intro i r h
      simp only [build_daily_from] at h
      cases he : build_daily_entry fs i t with
      | none => rw [he] at h; simp at h
      | some e =>
          rw [he] at h
          cases hr : build_daily_from fs (i + 1) rest with
          | none => rw [hr] at h; simp at h
          | some tail =>
              rw [hr] at h
              simp only [Option.some.injEq] at h
              subst h
              obtain ⟨hl, hm⟩ := ih (i + 1) tail hr
              refine ⟨by simp [hl], ?_⟩
              simp [hm, build_daily_entry_date fs i t e he]

/-! ## Claim theorems -/

/-- C4 counterexample: the weather-code table of
`_get_weather_code_description` has 28 entries, not the 33 the claim states. -/
theorem c4_weather_code_table_counterexample :
    weather_codes.length = 28 ∧ weather_codes.length ≠ 33 := by
  exact ⟨rfl, by decide⟩

/-- C4 (amended): every code in the 28-entry table maps to the exact literal
string of the Glossary table, and every code outside the table maps to the
literal `"Unknown"`. -/
theorem c4_weather_code_table :
    weather_codes.length = 28 ∧
    (get_weather_code_description 0 = "Clear sky" ∧
     get_weather_code_description 1 = "Mainly clear" ∧
     get_weather_code_description 2 = "Partly cloudy" ∧
     get_weather_code_description 3 = "Overcast" ∧
     get_weather_code_description 45 = "Foggy" ∧
     get_weather_code_description 48 = "Depositing rime fog" ∧
     get_weather_code_description 51 = "Light drizzle" ∧
     get_weather_code_description 53 = "Moderate drizzle" ∧
     get_weather_code_description 55 = "Dense drizzle" ∧
     get_weather_code_description 56 = "Light freezing drizzle" ∧
     get_weather_code_description 57 = "Dense freezing drizzle" ∧
     get_weather_code_description 61 = "Slight rain" ∧
     get_weather_code_description 63 = "Moderate rain" ∧
     get_weather_code_description 65 = "Heavy rain" ∧
     get_weather_code_description 66 = "Light freezing rain" ∧
     get_weather_code_description 67 = "Heavy freezing rain" ∧
     get_weather_code_description 71 = "Slight snow fall" ∧
     get_weather_code_description 73 = "Moderate snow fall" ∧
     get_weather_code_description 75 = "Heavy snow fall" ∧
     get_weather_code_description 77 = "Snow grains" ∧
     get_weather_code_description 80 = "Slight rain showers" ∧
     get_weather_code_description 81 = "Moderate rain showers" ∧
     get_weather_code_description 82 = "Violent rain showers" ∧
     get_weather_code_description 85 = "Slight snow showers" ∧
     get_weather_code_description 86 = "Heavy snow showers" ∧
     get_weather_code_description 95 = "Thunderstorm" ∧
     get_weather_code_description 96 = "Thunderstorm with slight hail" ∧
     get_weather_code_description 99 = "Thunderstorm with heavy hail") ∧
    ∀ code : Rat, code ∉ weather_codes.map Prod.fst →
      get_weather_code_description code = "Unknown" := by
  refine ⟨rfl,
    ⟨rfl, rfl, rfl, rfl, rfl, rfl, rfl, rfl, rfl, rfl, rfl, rfl, rfl, rfl,
     rfl, rfl, rfl, rfl, rfl, rfl, rfl, rfl, rfl, rfl, rfl, rfl, rfl, rfl⟩, ?_⟩
  intro code hc
  unfold get_weather_code_description
  rw [table_get_of_not_mem weather_codes code hc]
  rfl

/-- C4 witness: code 100 is outside the table and maps to `"Unknown"`. -/
theorem c4_weather_code_table_witness :
    get_weather_code_description 100 = "Unknown" :=
  c4_weather_code_table.2.2 100 (by decide)

/-- C5: the byCode handler uppercases the code before calling the service, so
two codes with the same uppercasing produce the identical upstream request
(whose URL carries the uppercased code) and the identical outcome on every
upstream response. -/
theorem c5_by_code_case_insensitive (c₁ c₂ : String)
    (h : py_upper c₁ = py_upper c₂) :
    get_country_by_code_handler_request c₁ = get_country_by_code_handler_request c₂ ∧
    (get_country_by_code_handler_request c₁).url
      = countries_base ++ "/alpha/" ++ py_upper c₁ ∧
    ∀ resp, get_country_by_code_handler c₁ resp = get_country_by_code_handler c₂ resp := by
  unfold get_country_by_code_handler_request get_country_by_code_request
  rw [h]
  exact ⟨rfl, rfl, fun _ => rfl⟩

/-- C5 witness: `byCode("usa")` and `byCode("USA")` issue the same request. -/
theorem c5_by_code_case_insensitive_witness :
    get_country_by_code_handler_request "usa" = get_country_by_code_handler_request "USA" :=
  (c5_by_code_case_insensitive "usa" "USA" rfl).1

/-- C9: the quotes client verifies TLS only when `QUOTES_VERIFY_SSL` is set to
a truthy value (`true`/`1`/`yes`, case-insensitively); that flag reaches every
quotes request; the weather and country clients leave verification on. -/
theorem c9_quotes_ssl_verification :
    parse_verify_ssl none = false ∧
    (∀ s, parse_verify_ssl (some s)
        = (py_lower s == "true" || py_lower s == "1" || py_lower s == "yes")) ∧
    (∀ env tags max_length,
       (get_random_quote_request env tags max_length).verify = parse_verify_ssl env) ∧
    (∀ env quote_id,
       (get_quote_by_id_request env quote_id).verify = parse_verify_ssl env) ∧
    (∀ env query author tags min_length max_length limit skip,
       (search_quotes_request env query author tags min_length max_length
          limit skip).verify = parse_verify_ssl env) ∧
    (∀ env author_slug limit skip,
       (get_quotes_by_author_request env author_slug limit skip).verify
          = parse_verify_ssl env) ∧
    (∀ latitude longitude timezone,
       (get_current_weather_request latitude longitude timezone).verify = true) ∧
    (∀ name, (get_country_by_name_request name).verify = true) ∧
    (∀ code, (get_country_by_code_request code).verify = true) ∧
    (∀ fields, (get_all_countries_request fields).verify = true) ∧
    (∀ region, (search_countries_by_region_request region).verify = true) :=
  ⟨rfl, fun _ => rfl, fun _ _ _ => rfl, fun _ _ => rfl,
   fun _ _ _ _ _ _ _ _ => rfl, fun _ _ _ _ => rfl, fun _ _ _ => rfl,
   fun _ => rfl, fun _ => rfl, fun _ => rfl, fun _ => rfl⟩

/-- C2 counterexample: on an upstream 404 the quotes byId lookup raises the
not-found `ServiceException` — an error, not the "not found" sentinel the
claim promises for every single-entity lookup (its return type has no
sentinel value at all). -/
theorem c2_not_found_counterexample :
    get_quote_by_id { status := 404, body := Json.null }
      = Except.error SvcError.notFound := rfl

/-- C2 (amended): the country byName/byCode lookups translate an upstream 404
into the `None` sentinel and any other non-2xx status into a `ServiceError`;
the quotes byId lookup instead raises on every non-2xx status — a 404 raises
the distinguished not-found `ServiceException` (which the HTTP handler, not
the service, then maps to a 404 response), any other non-2xx the plain
upstream `ServiceError`. -/
theorem c2_not_found_handling :
    (∀ resp : HttpResponse, resp.status = 404 →
       get_country_by_name resp = Except.ok none) ∧
    (∀ resp : HttpResponse, resp.status = 404 →
       get_country_by_code resp = Except.ok none) ∧
    (∀ resp : HttpResponse, is2xx resp.status = false → resp.status ≠ 404 →
       get_country_by_name resp = Except.error SvcError.upstream) ∧
    (∀ resp : HttpResponse, is2xx resp.status = false → resp.status ≠ 404 →
       get_country_by_code resp = Except.error SvcError.upstream) ∧
    (∀ resp : HttpResponse, resp.status = 404 →
       get_quote_by_id resp = Except.error SvcError.notFound) ∧
    (∀ resp : HttpResponse, is2xx resp.status = false → resp.status ≠ 404 →
       get_quote_by_id resp = Except.error SvcError.upstream) := by
  refine ⟨?_, ?_, ?_, ?_, ?_, ?_⟩
  · intro resp h
    obtain ⟨st, body⟩ := resp
    cases h
    rfl
  · intro resp h
    obtain ⟨st, body⟩ := resp
    cases h
    rfl
  · intro resp h2 h4
    obtain ⟨st, body⟩ := resp
    simp only [get_country_by_name]
    simp only at h2 h4
    simp [h2, h4]
  · intro resp h2 h4
    obtain ⟨st, body⟩ := resp
    simp only [get_country_by_code]
    simp only at h2 h4
    simp [h2, h4]
  · intro resp h
    obtain ⟨st, body⟩ := resp
    cases h
    rfl
  · intro resp h2 h4
    obtain ⟨st, body⟩ := resp
    simp only [get_quote_by_id]
    simp only at h2 h4
    simp [h2, h4]

/-- C2 witness: a 404 on byName gives the sentinel, a 500 on byCode and a 500
on byId give `ServiceError`s. -/
theorem c2_not_found_handling_witness :
    get_country_by_name { status := 404, body := Json.null } = Except.ok none ∧
    get_country_by_code { status := 500, body := Json.null }
      = Except.error SvcError.upstream ∧
    get_quote_by_id { status := 500, body := Json.null }
      = Except.error SvcError.upstream :=
  ⟨c2_not_found_handling.1 ⟨404, Json.null⟩ rfl,
   c2_not_found_handling.2.2.2.1 ⟨500, Json.null⟩ rfl (by decide),
   c2_not_found_handling.2.2.2.2.2 ⟨500, Json.null⟩ rfl (by decide)⟩

/-- C1 counterexample: a two-element array is NOT rejected — `get_random_quote`
parses its first element (here the empty object, giving the all-defaults
quote), while the claim requires the invalid-upstream-shape error for any
multi-element array. -/
theorem c1_random_quote_counterexample :
    get_random_quote { status := 200, body := Json.arr [Json.obj [], Json.obj []] }
      = Except.ok
          { id := "", content := "", author := "", author_slug := none,
            tags := [], length := 0, date_added := none, date_modified := none } := rfl

/-- C1 (amended): on a 2xx response the normalizer accepts a bare JSON object
or ANY non-empty array — producing one `Quote` from the object or from the
first array element — and fails with the invalid-upstream-shape error exactly
on the empty array and on non-object, non-array bodies. -/
theorem c1_random_quote_shapes (resp : HttpResponse) (h : is2xx resp.status = true) :
    (∀ x rest q, resp.body = Json.arr (x :: rest) → parse_quote x = some q →
       get_random_quote resp = Except.ok q) ∧
    (∀ x rest, resp.body = Json.arr (x :: rest) → parse_quote x = none →
       get_random_quote resp = Except.error SvcError.unexpected) ∧
    (∀ fs q, resp.body = Json.obj fs → parse_quote (Json.obj fs) = some q →
       get_random_quote resp = Except.ok q) ∧
    (∀ fs, resp.body = Json.obj fs → parse_quote (Json.obj fs) = none →
       get_random_quote resp = Except.error SvcError.unexpected) ∧
    (resp.body = Json.arr [] →
       get_random_quote resp = Except.error SvcError.invalidShape) ∧
    (resp.body = Json.null →
       get_random_quote resp = Except.error SvcError.invalidShape) ∧
    (∀ b, resp.body = Json.bool b →
       get_random_quote resp = Except.error SvcError.invalidShape) ∧
    (∀ n, resp.body = Json.num n →
       get_random_quote resp = Except.error SvcError.invalidShape) ∧
    (∀ s, resp.body = Json.str s →
       get_random_quote resp = Except.error SvcError.invalidShape) := by
  obtain ⟨st, body⟩ := resp
  simp only at h
  refine ⟨?_, ?_, ?_, ?_, ?_, ?_, ?_, ?_, ?_⟩
  · intro x rest q hb hp
    subst hb
    simp [get_random_quote, h, hp]
  · intro x rest hb hp
    subst hb
    simp [get_random_quote, h, hp]
  · intro fs q hb hp
    subst hb
    simp [get_random_quote, h, hp]
  · intro fs hb hp
    subst hb
    simp [get_random_quote, h, hp]
  · intro hb
    subst hb
    simp [get_random_quote, h]
  · intro hb
    subst hb
    simp [get_random_quote, h]
  · intro b hb
    subst hb
    simp [get_random_quote, h]
  · intro n hb
    subst hb
    simp [get_random_quote, h]
  · intro s hb
    subst hb
    simp [get_random_quote, h]

/-- C1 witness: the one-element array and the bare object of the claim both
yield the expected quote, and the empty array yields the invalid-shape error. -/
theorem c1_random_quote_shapes_witness :
    get_random_quote ⟨200, Json.arr [Json.obj sample_quote_fields]⟩
      = Except.ok sample_quote ∧
    get_random_quote ⟨200, Json.obj sample_quote_fields⟩ = Except.ok sample_quote ∧
    get_random_quote ⟨200, Json.arr []⟩ = Except.error SvcError.invalidShape :=
  ⟨(c1_random_quote_shapes ⟨200, Json.arr [Json.obj sample_quote_fields]⟩ rfl).1
      (Json.obj sample_quote_fields) [] sample_quote rfl rfl,
   (c1_random_quote_shapes ⟨200, Json.obj sample_quote_fields⟩ rfl).2.2.1
      sample_quote_fields sample_quote rfl rfl,
   (c1_random_quote_shapes ⟨200, Json.arr []⟩ rfl).2.2.2.2.1 rfl⟩

/-- C6: calling codes are derived as `root ++ suffix` for each suffix in
upstream order; an object with an `idd` block yields that list (empty when
`suffixes` is empty), while a missing `idd` key leaves the field `None` —
distinguishable from the empty list — and the transform carries the extracted
value into `Country.calling_codes` unchanged. -/
theorem c6_calling_codes (fs : List (String × Json)) :
    (∀ (idd : List (String × Json)) (root : String) (sfx : List String),
       jlookup fs "idd" = some (Json.obj idd) →
       jlookup idd "root" = some (Json.str root) →
       jlookup idd "suffixes" = some (Json.arr (sfx.map Json.str)) →
       extract_calling_codes fs = some (some (sfx.map fun suffix => root ++ suffix))) ∧
    (jlookup fs "idd" = none → extract_calling_codes fs = some none) ∧
    (∀ c cc, transform_country_data (Json.obj fs) = some c →
       extract_calling_codes fs = some cc → c.calling_codes = cc) := by
  refine ⟨?_, ?_, ?_⟩
  · intro idd root sfx hidd hroot hsfx
    simp [extract_calling_codes, hidd, py_key_contains, hroot, getStrD,
      getStrListD, hsfx, asStrList_map_str]
  · intro hidd
    exact extract_calling_codes_of_missing fs hidd
  · intro c cc hc hcc
    have := (transform_country_data_obj_eq fs c hc).2.2.1
    rw [this] at hcc
    exact Option.some.inj hcc

/-- C6 witness: the three concrete cases of the claim — two suffixes give the
two concatenations, empty suffixes give the empty list, and a record with no
`idd` key gives `None`. -/
theorem c6_calling_codes_witness :
    extract_calling_codes [("idd", Json.obj sample_idd_fields)]
      = some (some ["+1201", "+1202"]) ∧
    extract_calling_codes [("idd", Json.obj sample_idd_empty)] = some (some []) ∧
    extract_calling_codes [("population", Json.num 5)] = some none :=
  ⟨(c6_calling_codes _).1 sample_idd_fields "+1" ["201", "202"] rfl rfl rfl,
   (c6_calling_codes _).1 sample_idd_empty "+1" [] rfl rfl rfl,
   (c6_calling_codes _).2.1 rfl⟩

/-- C10: when the current-weather object has no `weather_code` key the parse
is identical to parsing the same object with `weather_code = 0` prepended,
and any successful parse reports code `0` with description `"Clear sky"` —
so an absent code is indistinguishable from a genuine clear-sky report. -/
theorem c10_missing_weather_code (fs : List (String × Json))
    (h : jlookup fs "weather_code" = none) :
    parse_current_weather (Json.obj fs)
      = parse_current_weather (Json.obj (("weather_code", Json.num 0) :: fs)) ∧
    ∀ cw, parse_current_weather (Json.obj fs) = some cw →
      cw.weather_code = 0 ∧ cw.weather_description = "Clear sky" := by
  constructor
  · have e0 : getNumD (("weather_code", Json.num 0) :: fs) "weather_code" 0
        = some 0 := by
      simp [getNumD, jlookup]
    have e1 : ∀ key dflt, key ≠ "weather_code" →
        getNumD (("weather_code", Json.num 0) :: fs) key dflt = getNumD fs key dflt := by
      intro key dflt hk
      simp [getNumD, jlookup, hk]
    have e2 : ∀ key, key ≠ "weather_code" →
        getOptNum (("weather_code", Json.num 0) :: fs) key = getOptNum fs key := by
      intro key hk
      simp [getOptNum, jlookup, hk]
    simp only [parse_current_weather]
    rw [e1 "temperature_2m" 0 (by decide), e1 "relative_humidity_2m" 0 (by decide),
      e1 "wind_speed_10m" 0 (by decide), e1 "wind_direction_10m" 0 (by decide),
      e0, getNumD_of_missing fs "weather_code" 0 h,
      e2 "surface_pressure" (by decide), e2 "visibility" (by decide)]
  · intro cw hcw
    have proj := parse_current_weather_obj_eq fs cw hcw
    have hwc : cw.weather_code = 0 := by
      have := proj.2.2.2.2.1
      rw [getNumD_of_missing fs "weather_code" 0 h] at this
      exact (Option.some.inj this).symm
    refine ⟨hwc, ?_⟩
    rw [proj.2.2.2.2.2.1, hwc]
    rfl

/-- C10 witness: the empty current object parses equal to one carrying
`weather_code = 0`, and its parse reports code 0 / `"Clear sky"`. -/
theorem c10_missing_weather_code_witness :
    parse_current_weather (Json.obj [])
      = parse_current_weather (Json.obj [("weather_code", Json.num 0)]) ∧
    (CurrentWeather.mk 0 0 0 0 0 "Clear sky" none none).weather_code = 0 ∧
    (CurrentWeather.mk 0 0 0 0 0 "Clear sky" none none).weather_description
      = "Clear sky" :=
  ⟨(c10_missing_weather_code [] rfl).1,
   (c10_missing_weather_code [] rfl).2
     (CurrentWeather.mk 0 0 0 0 0 "Clear sky" none none) rfl⟩

/-- `total_count` of a successful quotes-list parse: the upstream
`totalCount` when present, the number of parsed quotes otherwise. -/
theorem parse_quotes_list_body_total (fs : List (String × Json)) (qs : List Quote)
    (t : Rat) (h : parse_quotes_list_body (Json.obj fs) = Except.ok (qs, t)) :
    (∀ n, jlookup fs "totalCount" = some (Json.num n) → t = n) ∧
    (jlookup fs "totalCount" = none → t = (qs.length : Rat)) := by
  simp only [parse_quotes_list_body] at h
  cases hr : parse_results_field fs with
  | none => rw [hr] at h; simp at h
  | some quotes =>
      rw [hr] at h
      constructor
      · intro n htc
        rw [htc] at h
        simp only [Except.ok.injEq, Prod.mk.injEq] at h
        exact h.2.symm
      · intro htc
        rw [htc] at h
        simp only [Except.ok.injEq, Prod.mk.injEq] at h
        obtain ⟨hq, ht⟩ := h
        rw [← ht, hq]

/-- Inversion of a successful `handler.search_quotes` run. -/
theorem search_quotes_handler_ok_inv (skip limit : Nat) (resp : HttpResponse)
    (r : QuotesListResponse) (h : search_quotes_handler skip limit resp = Except.ok r) :
    parse_quotes_list_body resp.body = Except.ok (r.quotes, r.total_count) ∧
    r.count = r.quotes.length ∧
    r.page = (if limit > 0 then skip / limit + 1 else 1) := by
  unfold search_quotes_handler at h
  cases hs : search_quotes resp with
  | error e => rw [hs] at h; simp at h
  | ok p =>
      obtain ⟨qs, t⟩ := p
      rw [hs] at h
      simp only [Except.ok.injEq] at h
      subst h
      refine ⟨?_, rfl, rfl⟩
      unfold search_quotes at hs
      cases h2 : is2xx resp.status
      · rw [h2] at hs; simp at hs
      · rw [h2] at hs; simpa using hs

/-- Inversion of a successful `handler.get_quotes_by_author` run. -/
theorem get_quotes_by_author_handler_ok_inv (skip limit : Nat) (resp : HttpResponse)
    (r : QuotesListResponse)
    (h : get_quotes_by_author_handler skip limit resp = Except.ok r) :
    parse_quotes_list_body resp.body = Except.ok (r.quotes, r.total_count) ∧
    r.count = r.quotes.length ∧
    r.page = (if limit > 0 then skip / limit + 1 else 1) := by
  unfold get_quotes_by_author_handler at h
  cases hs : get_quotes_by_author resp with
  | error e => rw [hs] at h; simp at h
  | ok p =>
      obtain ⟨qs, t⟩ := p
      rw [hs] at h
      simp only [Except.ok.injEq] at h
      subst h
      refine ⟨?_, rfl, rfl⟩
      unfold get_quotes_by_author at hs
      cases h2 : is2xx resp.status
      · rw [h2] at hs; simp at hs
      · rw [h2] at hs; simpa using hs

/-- C3: both paginated list operations return `page = skip // limit + 1`
(`1` when `limit = 0`), `count` equal to the number of items actually
returned, and `total_count` equal to the upstream `totalCount` when present,
falling back to `count` otherwise. -/
theorem c3_pagination :
    (∀ skip limit resp r, search_quotes_handler skip limit resp = Except.ok r →
       (1 ≤ limit → r.page = skip / limit + 1) ∧
       (limit = 0 → r.page = 1) ∧
       r.count = r.quotes.length ∧
       (∀ fs n, resp.body = Json.obj fs →
          jlookup fs "totalCount" = some (Json.num n) → r.total_count = n) ∧
       (∀ fs, resp.body = Json.obj fs → jlookup fs "totalCount" = none →
          r.total_count = (r.count : Rat))) ∧
    (∀ skip limit resp r, get_quotes_by_author_handler skip limit resp = Except.ok r →
       (1 ≤ limit → r.page = skip / limit + 1) ∧
       (limit = 0 → r.page = 1) ∧
       r.count = r.quotes.length ∧
       (∀ fs n, resp.body = Json.obj fs →
          jlookup fs "totalCount" = some (Json.num n) → r.total_count = n) ∧
       (∀ fs, resp.body = Json.obj fs → jlookup fs "totalCount" = none →
          r.total_count = (r.count : Rat))) := by
  constructor
  · intro skip limit resp r h
    obtain ⟨hb, hcount, hpage⟩ := search_quotes_handler_ok_inv skip limit resp r h
    refine ⟨?_, ?_, hcount, ?_, ?_⟩
    · intro hl
      rw [hpage, if_pos (by omega)]
    · intro hl
      rw [hpage, hl]
      rfl
    · intro fs n hbody htc
      rw [hbody] at hb
      exact (parse_quotes_list_body_total fs r.quotes r.total_count hb).1 n htc
    · intro fs hbody htc
      rw [hbody] at hb
      rw [hcount]
      exact (parse_quotes_list_body_total fs r.quotes r.total_count hb).2 htc
  · intro skip limit resp r h
    obtain ⟨hb, hcount, hpage⟩ := get_quotes_by_author_handler_ok_inv skip limit resp r h
    refine ⟨?_, ?_, hcount, ?_, ?_⟩
    · intro hl
      rw [hpage, if_pos (by omega)]
    · intro hl
      rw [hpage, hl]
      rfl
    · intro fs n hbody htc
      rw [hbody] at hb
      exact (parse_quotes_list_body_total fs r.quotes r.total_count hb).1 n htc
    · intro fs hbody htc
      rw [hbody] at hb
      rw [hcount]
      exact (parse_quotes_list_body_total fs r.quotes r.total_count hb).2 htc

/-- C3 witness: `skip = 10`, `limit = 3` over a body reporting `totalCount = 7`
gives page 4 (`10 // 3 + 1`); the same body without `totalCount` makes
`total_count` fall back to the returned count. -/
theorem c3_pagination_witness :
    (search_quotes_handler 10 3
        ⟨200, Json.obj [("results", Json.arr []), ("totalCount", Json.num 7)]⟩
        = Except.ok ⟨[], 0, 4, 7⟩) ∧
    (QuotesListResponse.mk [] 0 4 7).page = 10 / 3 + 1 ∧
    (QuotesListResponse.mk [] 0 4 7).total_count = 7 ∧
    (QuotesListResponse.mk [] 0 1 0).total_count
      = ((QuotesListResponse.mk [] 0 1 0).count : Rat) := by
  refine ⟨rfl, ?_, ?_, ?_⟩
  · exact (c3_pagination.1 10 3
      ⟨200, Json.obj [("results", Json.arr []), ("totalCount", Json.num 7)]⟩
      ⟨[], 0, 4, 7⟩ rfl).1 (by decide)
  · exact (c3_pagination.1 10 3
      ⟨200, Json.obj [("results", Json.arr []), ("totalCount", Json.num 7)]⟩
      ⟨[], 0, 4, 7⟩ rfl).2.2.2.1 [("results", Json.arr []), ("totalCount", Json.num 7)]
      7 rfl rfl
  · exact (c3_pagination.2 10 0
      ⟨200, Json.obj [("results", Json.arr [])]⟩
      ⟨[], 0, 1, 0⟩ rfl).2.2.2.2 [("results", Json.arr [])] rfl rfl

/-- Inversion of a successful hourly-forecast build. -/
theorem build_hourly_forecast_inv (j : Json) (r : List HourlyForecast)
    (h : build_hourly_forecast j = some r) :
    ∃ fs times, j = Json.obj fs ∧ getStrListD fs "time" = some times ∧
      build_hourly_from fs 0 (times.take 48) = some r := by
  cases j with
  | obj fs =>
      simp only [build_hourly_forecast] at h
      rw [Option.bind_eq_some] at h
      obtain ⟨times, ht, hb⟩ := h
      exact ⟨fs, times, rfl, ht, hb⟩
  | null => simp [build_hourly_forecast] at h
  | bool b => simp [build_hourly_forecast] at h
  | num n => simp [build_hourly_forecast] at h
  | str s => simp [build_hourly_forecast] at h
  | arr items => simp [build_hourly_forecast] at h

/-- Inversion of a successful daily-forecast build. -/
theorem build_daily_forecast_inv (j : Json) (r : List DailyForecast)
    (h : build_daily_forecast j = some r) :
    ∃ fs times, j = Json.obj fs ∧ getStrListD fs "time" = some times ∧
      build_daily_from fs 0 (times.take 7) = some r := by
  cases j with
  | obj fs =>
      simp only [build_daily_forecast] at h
      rw [Option.bind_eq_some] at h
      obtain ⟨times, ht, hb⟩ := h
      exact ⟨fs, times, rfl, ht, hb⟩
  | null => simp [build_daily_forecast] at h
  | bool b => simp [build_daily_forecast] at h
  | num n => simp [build_daily_forecast] at h
  | str s => simp [build_daily_forecast] at h
  | arr items => simp [build_daily_forecast] at h

/-- An hourly forecast list is never longer than 48. -/
theorem build_hourly_forecast_len_le (j : Json) (r : List HourlyForecast)
    (h : build_hourly_forecast j = some r) : r.length ≤ 48 := by
  obtain ⟨fs, times, _, _, hb⟩ := build_hourly_forecast_inv j r h
  have := (build_hourly_from_spec fs (times.take 48) 0 r hb).1
  rw [List.length_take] at this
  omega

/-- A daily forecast list is never longer than 7. -/
theorem build_daily_forecast_len_le (j : Json) (r : List DailyForecast)
    (h : build_daily_forecast j = some r) : r.length ≤ 7 := by
  obtain ⟨fs, times, _, _, hb⟩ := build_daily_forecast_inv j r h
  have := (build_daily_from_spec fs (times.take 7) 0 r hb).1
  rw [List.length_take] at this
  omega

/-- A produced hourly list always comes from a present `hourly` block. -/
theorem forecast_hourly_part_some_inv (flag : Bool) (fs : List (String × Json))
    (l : List HourlyForecast) (h : forecast_hourly_part flag fs = some (some l)) :
    ∃ hj, jlookup fs "hourly" = some hj ∧ build_hourly_forecast hj = some l := by
  cases flag with
  | false => simp [forecast_hourly_part] at h
  | true =>
      simp only [forecast_hourly_part] at h
      cases hj : jlookup fs "hourly" with
      | none => rw [hj] at h; simp at h
      | some v =>
          rw [hj] at h
          simp only [] at h
          cases hbf : build_hourly_forecast v with
          | none => rw [hbf] at h; simp at h
          | some l2 =>
              rw [hbf] at h
              simp at h
              subst h
              exact ⟨v, rfl, hbf⟩

/-- A produced daily list always comes from a present `daily` block. -/
theorem forecast_daily_part_some_inv (flag : Bool) (fs : List (String × Json))
    (l : List DailyForecast) (h : forecast_daily_part flag fs = some (some l)) :
    ∃ dj, jlookup fs "daily" = some dj ∧ build_daily_forecast dj = some l := by
  cases flag with
  | false => simp [forecast_daily_part] at h
  | true =>
      simp only [forecast_daily_part] at h
      cases hj : jlookup fs "daily" with
      | none => rw [hj] at h; simp at h
      | some v =>
          rw [hj] at h
          simp only [] at h
          cases hbf : build_daily_forecast v with
          | none => rw [hbf] at h; simp at h
          | some l2 =>
              rw [hbf] at h
              simp at h
              subst h
              exact ⟨v, rfl, hbf⟩

/-- Inversion of a successful `get_weather_with_forecast` run: the produced
hourly and daily lists come from the corresponding build functions. -/
theorem get_weather_with_forecast_ok_inv (hourly daily : Bool)
    (resp : HttpResponse) (res : ForecastResult)
    (h : get_weather_with_forecast hourly daily resp = Except.ok res) :
    (∀ l, res.hourly = some l →
       ∃ hj, build_hourly_forecast hj = some l) ∧
    (∀ l, res.daily = some l →
       ∃ dj, build_daily_forecast dj = some l) := by
  unfold get_weather_with_forecast at h
  cases h2 : is2xx resp.status
  · rw [h2] at h
    simp at h
  · rw [h2] at h
    simp only [if_true] at h
    cases hbody : resp.body with
    | obj fs =>
        rw [hbody] at h
        simp only [] at h
        cases hcw : parse_current_weather ((jlookup fs "current").getD (Json.obj [])) with
        | none => rw [hcw] at h; simp at h
        | some cw =>
            rw [hcw] at h
            simp only [] at h
            cases hhp : forecast_hourly_part hourly fs with
            | none => rw [hhp] at h; simp at h
            | some ho =>
                rw [hhp] at h
                simp only [] at h
                cases hdp : forecast_daily_part daily fs with
                | none => rw [hdp] at h; simp at h
                | some dl =>
                    rw [hdp] at h
                    simp only [Except.ok.injEq] at h
                    subst h
                    constructor
                    · intro l hl
                      simp only at hl
                      subst hl
                      obtain ⟨hj, _, hbf⟩ :=
                        forecast_hourly_part_some_inv hourly fs l hhp
                      exact ⟨hj, hbf⟩
                    · intro l hl
                      simp only at hl
                      subst hl
                      obtain ⟨dj, _, hbf⟩ :=
                        forecast_daily_part_some_inv daily fs l hdp
                      exact ⟨dj, hbf⟩
    | null => rw [hbody] at h; simp at h
    | bool b => rw [hbody] at h; simp at h
    | num n => rw [hbody] at h; simp at h
    | str s => rw [hbody] at h; simp at h
    | arr items => rw [hbody] at h; simp at h

/-- C8: hourly forecast lists are truncated to at most 48 entries and daily
lists to at most 7, the kept entries following the upstream time array in
order; the bounds hold for every list a successful
`get_weather_with_forecast` run returns. -/
theorem c8_forecast_truncation :
    (∀ j r, build_hourly_forecast j = some r → r.length ≤ 48) ∧
    (∀ j r, build_daily_forecast j = some r → r.length ≤ 7) ∧
    (∀ fs (times : List String) r,
       jlookup fs "time" = some (Json.arr (times.map Json.str)) →
       build_hourly_forecast (Json.obj fs) = some r →
       r.map HourlyForecast.time = (times.take 48).map py_replace_z) ∧
    (∀ fs (times : List String) r,
       jlookup fs "time" = some (Json.arr (times.map Json.str)) →
       build_daily_forecast (Json.obj fs) = some r →
       r.map DailyForecast.date = times.take 7) ∧
    (∀ hourly daily resp res l,
       get_weather_with_forecast hourly daily resp = Except.ok res →
       res.hourly = some l → l.length ≤ 48) ∧
    (∀ hourly daily resp res l,
       get_weather_with_forecast hourly daily resp = Except.ok res →
       res.daily = some l → l.length ≤ 7) := by
  refine ⟨build_hourly_forecast_len_le, build_daily_forecast_len_le, ?_, ?_, ?_, ?_⟩
  · intro fs times r hlk hb
    have hget : getStrListD fs "time" = some times := by
      simp [getStrListD, hlk, asStrList_map_str]
    simp only [build_hourly_forecast, hget, Option.some_bind] at hb
    exact (build_hourly_from_spec fs (times.take 48) 0 r hb).2
  · intro fs times r hlk hb
    have hget : getStrListD fs "time" = some times := by
      simp [getStrListD, hlk, asStrList_map_str]
    simp only [build_daily_forecast, hget, Option.some_bind] at hb
    exact (build_daily_from_spec fs (times.take 7) 0 r hb).2
  · intro hourly daily resp res l h hl
    obtain ⟨hj, hbf⟩ := (get_weather_with_forecast_ok_inv hourly daily resp res h).1 l hl
    exact build_hourly_forecast_len_le hj l hbf
  · intro hourly daily resp res l h hl
    obtain ⟨dj, hbf⟩ := (get_weather_with_forecast_ok_inv hourly daily resp res h).2 l hl
    exact build_daily_forecast_len_le dj l hbf

/-- C8 witness: a concrete one-entry hourly build satisfies the 48 bound and
reproduces the (replaced) time string; a concrete daily build satisfies 7. -/
theorem c8_forecast_truncation_witness :
    ([⟨"a+00:00c", 0, 0, 0, 0, 0, "Clear sky", none⟩] : List HourlyForecast).length ≤ 48 ∧
    ([⟨"2024-01-01", 0, 0, 0, "Clear sky", none, none⟩] : List DailyForecast).length ≤ 7 ∧
    ([⟨"a+00:00c", 0, 0, 0, 0, 0, "Clear sky", none⟩] : List HourlyForecast).map
        HourlyForecast.time = (["aZc"].take 48).map py_replace_z :=
  ⟨c8_forecast_truncation.1 (Json.obj [("time", Json.arr [Json.str "aZc"])]) _ rfl,
   c8_forecast_truncation.2.1 (Json.obj [("time", Json.arr [Json.str "2024-01-01"])]) _ rfl,
   c8_forecast_truncation.2.2.1 [("time", Json.arr [Json.str "aZc"])] ["aZc"] _ rfl rfl⟩

/-- Two `some`-facts about one optional value agree. -/
theorem default_from_opt {α : Type} {x : Option α} {a b : α}
    (hp : x = some a) (hd : x = some b) : a = b := by
  rw [hp] at hd
  exact Option.some.inj hd

/-- C7 counterexample: a forecast block whose `time` array has two entries but
whose other field arrays are missing does NOT default the missing fields — the
one-element default list `[0.0]` is indexed at 1, the `IndexError` becomes a
`ServiceException`, and normalization fails instead of defaulting. -/
theorem c7_defaulting_counterexample :
    build_hourly_forecast (Json.obj [("time",
      Json.arr [Json.str "2024-01-01T00:00", Json.str "2024-01-01T01:00"])])
      = none := rfl

/-- C7 (amended): for `Quote`, `CurrentWeather` and `Country` every field
missing from the upstream JSON is deterministically defaulted (`0` for
numbers, `""` for strings, `[]` for lists, `None` only for declared-optional
fields); hourly/daily forecast entries are defaulted only at index 0 — their
missing field arrays default to one-element lists, so at any later index the
build fails instead of defaulting. -/
theorem c7_defaulting :
    (∀ fs q, parse_quote (Json.obj fs) = some q →
       (jlookup fs "_id" = none → q.id = "") ∧
       (jlookup fs "content" = none → q.content = "") ∧
       (jlookup fs "author" = none → q.author = "") ∧
       (jlookup fs "authorSlug" = none → q.author_slug = none) ∧
       (jlookup fs "tags" = none → q.tags = []) ∧
       (jlookup fs "length" = none → q.length = 0) ∧
       (jlookup fs "dateAdded" = none → q.date_added = none) ∧
       (jlookup fs "dateModified" = none → q.date_modified = none)) ∧
    (∀ fs cw, parse_current_weather (Json.obj fs) = some cw →
       (jlookup fs "temperature_2m" = none → cw.temperature = 0) ∧
       (jlookup fs "relative_humidity_2m" = none → cw.humidity = 0) ∧
       (jlookup fs "wind_speed_10m" = none → cw.wind_speed = 0) ∧
       (jlookup fs "wind_direction_10m" = none → cw.wind_direction = 0) ∧
       (jlookup fs "weather_code" = none → cw.weather_code = 0) ∧
       (jlookup fs "surface_pressure" = none → cw.pressure = none) ∧
       (jlookup fs "visibility" = none → cw.visibility = none)) ∧
    (∀ fs c, transform_country_data (Json.obj fs) = some c →
       (jlookup fs "name" = none → c.name = "" ∧ c.official_name = "") ∧
       (jlookup fs "capital" = none → c.capital = some []) ∧
       (jlookup fs "region" = none → c.region = "") ∧
       (jlookup fs "subregion" = none → c.subregion = none) ∧
       (jlookup fs "population" = none → c.population = 0) ∧
       (jlookup fs "area" = none → c.area = none) ∧
       (jlookup fs "currencies" = none → c.currencies = none) ∧
       (jlookup fs "languages" = none → c.languages = none) ∧
       (jlookup fs "flag" = none → c.flag = "") ∧
       (jlookup fs "flags" = none → c.flag_url = none) ∧
       (jlookup fs "cca2" = none → c.cca2 = "") ∧
       (jlookup fs "cca3" = none → c.cca3 = "") ∧
       (jlookup fs "idd" = none → c.calling_codes = none) ∧
       (jlookup fs "timezones" = none → c.timezones = none)) ∧
    (∀ fs t, jlookup fs "temperature_2m" = none →
       jlookup fs "relative_humidity_2m" = none →
       jlookup fs "wind_speed_10m" = none →
       jlookup fs "wind_direction_10m" = none →
       jlookup fs "weather_code" = none →
       jlookup fs "precipitation_probability" = none →
       build_hourly_entry fs 0 t
         = some ⟨py_replace_z t, 0, 0, 0, 0, 0, "Clear sky", none⟩) ∧
    (∀ fs t i, jlookup fs "temperature_2m" = none → i ≠ 0 →
       build_hourly_entry fs i t = none) ∧
    (∀ fs t, jlookup fs "temperature_2m_max" = none →
       jlookup fs "temperature_2m_min" = none →
       jlookup fs "weather_code" = none →
       jlookup fs "precipitation_sum" = none →
       jlookup fs "wind_speed_10m_max" = none →
       build_daily_entry fs 0 t = some ⟨t, 0, 0, 0, "Clear sky", none, none⟩) ∧
    (∀ fs t i, jlookup fs "temperature_2m_max" = none → i ≠ 0 →
       build_daily_entry fs i t = none) := by
  refine ⟨?_, ?_, ?_, ?_, ?_, ?_, ?_⟩
  · intro fs q hq
    obtain ⟨p1, p2, p3, p4, p5, p6, p7, p8⟩ := parse_quote_obj_eq fs q hq
    exact ⟨fun h => default_from_opt p1 (getStrD_of_missing fs "_id" "" h),
      fun h => default_from_opt p2 (getStrD_of_missing fs "content" "" h),
      fun h => default_from_opt p3 (getStrD_of_missing fs "author" "" h),
      fun h => default_from_opt p4 (getOptStr_of_missing fs "authorSlug" h),
      fun h => default_from_opt p5 (getStrListD_of_missing fs "tags" h),
      fun h => default_from_opt p6 (getNumD_of_missing fs "length" 0 h),
      fun h => default_from_opt p7 (getOptStr_of_missing fs "dateAdded" h),
      fun h => default_from_opt p8 (getOptStr_of_missing fs "dateModified" h)⟩
  · intro fs cw hcw
    obtain ⟨p1, p2, p3, p4, p5, _, p6, p7⟩ := parse_current_weather_obj_eq fs cw hcw
    exact ⟨fun h => default_from_opt p1 (getNumD_of_missing fs "temperature_2m" 0 h),
      fun h => default_from_opt p2 (getNumD_of_missing fs "relative_humidity_2m" 0 h),
      fun h => default_from_opt p3 (getNumD_of_missing fs "wind_speed_10m" 0 h),
      fun h => default_from_opt p4 (getNumD_of_missing fs "wind_direction_10m" 0 h),
      fun h => default_from_opt p5 (getNumD_of_missing fs "weather_code" 0 h),
      fun h => default_from_opt p6 (getOptNum_of_missing fs "surface_pressure" h),
      fun h => default_from_opt p7 (getOptNum_of_missing fs "visibility" h)⟩
  · intro fs c hc
    obtain ⟨p1, p2, p3, p4, p5, p6, p7, p8, p9, p10, p11, p12, p13, p14, p15⟩ :=
      transform_country_data_obj_eq fs c hc
    exact ⟨fun h => ⟨default_from_opt p5 (get_name_field_of_missing fs "common" h),
        default_from_opt p6 (get_name_field_of_missing fs "official" h)⟩,
      fun h => default_from_opt p7 (get_capital_field_of_missing fs h),
      fun h => default_from_opt p8 (getStrD_of_missing fs "region" "" h),
      fun h => default_from_opt p9 (getOptStr_of_missing fs "subregion" h),
      fun h => default_from_opt p10 (getNumD_of_missing fs "population" 0 h),
      fun h => default_from_opt p11 (getOptNum_of_missing fs "area" h),
      fun h => default_from_opt p1 (extract_currencies_of_missing fs h),
      fun h => default_from_opt p2 (extract_languages_of_missing fs h),
      fun h => default_from_opt p12 (getStrD_of_missing fs "flag" "" h),
      fun h => default_from_opt p4 (extract_flag_url_of_missing fs h),
      fun h => default_from_opt p13 (getStrD_of_missing fs "cca2" "" h),
      fun h => default_from_opt p14 (getStrD_of_missing fs "cca3" "" h),
      fun h => default_from_opt p3 (extract_calling_codes_of_missing fs h),
      fun h => default_from_opt p15 (getOptStrList_of_missing fs "timezones" h)⟩
  · intro fs t h1 h2 h3 h4 h5 h6
    simp only [build_hourly_entry,
      getNumArrD_zero_of_missing fs "temperature_2m" 0 h1,
      getNumArrD_zero_of_missing fs "relative_humidity_2m" 0 h2,
      getNumArrD_zero_of_missing fs "wind_speed_10m" 0 h3,
      getNumArrD_zero_of_missing fs "wind_direction_10m" 0 h4,
      getNumArrD_zero_of_missing fs "weather_code" 0 h5,
      getOptNumArr_zero_of_missing fs "precipitation_probability" h6,
      Option.some_bind]
    rfl
  · intro fs t i h1 hi
    simp [build_hourly_entry, getNumArrD, h1, hi]
  · intro fs t h1 h2 h3 h4 h5
    simp only [build_daily_entry,
      getNumArrD_zero_of_missing fs "temperature_2m_max" 0 h1,
      getNumArrD_zero_of_missing fs "temperature_2m_min" 0 h2,
      getNumArrD_zero_of_missing fs "weather_code" 0 h3,
      getOptNumArr_zero_of_missing fs "precipitation_sum" h4,
      getOptNumArr_zero_of_missing fs "wind_speed_10m_max" h5,
      Option.some_bind]
    rfl
  · intro fs t i h1 hi
    simp [build_daily_entry, getNumArrD, h1, hi]

/-- C7 witness: the all-defaults parses of the empty object for each entity,
and the defaulted index-0 hourly entry. -/
theorem c7_defaulting_witness :
    (Quote.mk "" "" "" none [] 0 none none).id = "" ∧
    (Quote.mk "" "" "" none [] 0 none none).tags = [] ∧
    (CurrentWeather.mk 0 0 0 0 0 "Clear sky" none none).temperature = 0 ∧
    build_hourly_entry [] 0 "t"
      = some ⟨py_replace_z "t", 0, 0, 0, 0, 0, "Clear sky", none⟩ ∧
    build_hourly_entry [] 1 "t" = none :=
  ⟨(c7_defaulting.1 [] (Quote.mk "" "" "" none [] 0 none none) rfl).1 rfl,
   (c7_defaulting.1 [] (Quote.mk "" "" "" none [] 0 none none) rfl).2.2.2.2.1 rfl,
   (c7_defaulting.2.1 [] (CurrentWeather.mk 0 0 0 0 0 "Clear sky" none none) rfl).1 rfl,
   c7_defaulting.2.2.2.1 [] "t" rfl rfl rfl rfl rfl rfl,
   c7_defaulting.2.2.2.2.1 [] "t" 1 rfl (by decide)⟩
